import Mathlib

/-!
Verification development for the `sql-executor` repository.

The definitions below are a shallow embedding of `src/sql-executor/sql_executor.py`:

* the natural sort used for execution order (`natKey`, `natLe`, `natsortStrings`,
  mirroring `natsorted` as used at line 645),
* the retrying connector `connect_db` (lines 93-125), where the behaviour of each
  underlying `psycopg2.connect` call is supplied as an oracle `Nat → AttemptOutcome`,
* the rollback helper `_attempt_rollback` (lines 260-283),
* the three transaction-mode workflows `_process_per_file` (lines 289-372),
  `_process_per_file_until_error` (lines 375-467) and `_process_all_or_nothing`
  (lines 470-575), where each file's behaviour (read result, execution result,
  and whether `_ensure_connection` fails when that file's turn begins) is part
  of the input `FileSpec`,
* the orchestrator `execute_sql_scripts_in_dir` (lines 581-813) including the
  anomaly gate, the sorting step, the final commit/rollback for all-or-nothing
  and the report computation of the `finally` block (`finalizeReport`),
* the `__main__` entry point (`mainFlow`, lines 819-918), including the
  duck-typing failure when the orchestrator returns the bare boolean `True`.

Effectful aspects (logging, sleeping, file writes) are abstracted to the data
they produce: the number of sleeps, the list of rollback contexts, the report
record.  A "connection loss at file f" is modelled as `_ensure_connection`
returning `None` at f's turn (its internal `connect_db` retries exhausted).
-/

namespace SqlExec

/-! ### Natural sort (model of `natsorted`) -/

/-- Character order used by the sorter: by code point. -/
def charLt (a b : Char) : Bool := decide (a < b)

/-- Lexicographic order on character lists (plain string comparison). -/
def clistLt : List Char → List Char → Bool
  | _, [] => false
  | [], _ :: _ => true
  | a :: as, b :: bs => charLt a b || (decide (a = b) && clistLt as bs)

/-- One chunk of a natural-sort key: a run of non-digits or the value of a digit run. -/
inductive NatChunk
  | str (s : List Char)
  | num (n : Nat)
deriving DecidableEq, Repr

/-- Chunk comparison; in a natural key chunks alternate `str`,`num`,`str`,…
starting with `str`, so same positions always carry the same constructor. -/
def chunkLt : NatChunk → NatChunk → Bool
  | NatChunk.str a, NatChunk.str b => clistLt a b
  | NatChunk.num a, NatChunk.num b => decide (a < b)
  | NatChunk.str _, NatChunk.num _ => true
  | NatChunk.num _, NatChunk.str _ => false

/-- Lexicographic ≤ on natural-sort keys. -/
def keyLe : List NatChunk → List NatChunk → Bool
  | [], _ => true
  | _ :: _, [] => false
  | a :: as, b :: bs => chunkLt a b || (decide (a = b) && keyLe as bs)

/-- Fold step grouping consecutive digits into a numeric chunk and consecutive
non-digits into a string chunk (chunks are accumulated in reverse). -/
def pushChar (acc : List NatChunk) (c : Char) : List NatChunk :=
  if c.isDigit then
    match acc with
    | NatChunk.num n :: rest => NatChunk.num (n * 10 + (c.toNat - 48)) :: rest
    | _ => NatChunk.num (c.toNat - 48) :: acc
  else
    match acc with
    | NatChunk.str s :: rest => NatChunk.str (s ++ [c]) :: rest
    | _ => NatChunk.str [c] :: acc

/-- Natural-sort key of a string: alternating string/number chunks, normalised
to start with a (possibly empty) string chunk, digit runs compared by value. -/
def natKey (s : String) : List NatChunk :=
  match (s.data.foldl pushChar []).reverse with
  | NatChunk.num n :: rest => NatChunk.str [] :: NatChunk.num n :: rest
  | l => l

/-- The path order used by `natsorted(..., key=lambda p: p.as_posix())`. -/
def natLe (a b : String) : Bool := keyLe (natKey a) (natKey b)

/-- `natLe` as a decidable relation. -/
abbrev natLeP (a b : String) : Prop := natLe a b = true

/-- `natsorted` on plain strings. -/
def natsortStrings (l : List String) : List String := List.insertionSort natLeP l

/-! ### Data model of a run -/

/-- What happens to one discovered file when its turn comes:
`execOk`: reads fine, executes and (where applicable) commits fine;
`empty`: `_read_sql_file` returns `None` (blank content);
`readError`: `OSError`/`UnicodeDecodeError` while reading;
`dbError`: `psycopg2.Error` from `_execute_sql` or `_attempt_commit`;
`unexpectedError`: any other exception while processing the file. -/
inductive FileFate
  | execOk
  | empty
  | readError
  | dbError
  | unexpectedError
deriving DecidableEq, Repr

/-- A discovered `.sql` file together with its behaviour during the run.
`connLost = true` means that when this file's turn begins, the connection is
found dead and `_ensure_connection`'s reconnection attempt fails (returns `None`). -/
structure FileSpec where
  path : String
  fate : FileFate
  connLost : Bool
deriving DecidableEq, Repr

/-- `natsorted` applied to `FileSpec`s by their path. -/
abbrev fileLeP (a b : FileSpec) : Prop := natLe a.path b.path = true

/-- The sorting step of the orchestrator (line 645). -/
def natsortFiles (l : List FileSpec) : List FileSpec := List.insertionSort fileLeP l

/-- The record a mode-specific workflow returns (its `return {...}` dictionary),
plus the observable actions it performed: rollback contexts in chronological
order, and how many times `_ensure_connection` had to invoke `connect_db`. -/
structure ProcResult where
  processed : List String
  errors : List String
  empty_files : List String
  fatal_error_occurred : Bool
  failed_all_or_nothing : Bool
  rollbacks : List String
  reconnectAttempts : Nat
deriving DecidableEq, Repr

/-- Workflow for `per-file` mode (lines 289-372): every error is absorbed and the
loop continues; only a permanently lost connection breaks the loop (without
recording the current file anywhere) and sets the fatal flag. -/
def _process_per_file : List FileSpec → ProcResult
  | [] =>
    { processed := [], errors := [], empty_files := [], fatal_error_occurred := false,
      failed_all_or_nothing := false, rollbacks := [], reconnectAttempts := 0 }
  | f :: rest =>
    if f.connLost then
      { processed := [], errors := [], empty_files := [], fatal_error_occurred := true,
        failed_all_or_nothing := false, rollbacks := [], reconnectAttempts := 1 }
    else
      let r := _process_per_file rest
      match f.fate with
      | FileFate.execOk => { r with processed := f.path :: r.processed }
      | FileFate.empty => { r with empty_files := f.path :: r.empty_files }
      | FileFate.readError => { r with errors := f.path :: r.errors }
      | FileFate.dbError =>
        { r with errors := f.path :: r.errors,
                 rollbacks := ("error processing " ++ f.path) :: r.rollbacks }
      | FileFate.unexpectedError =>
        { r with errors := f.path :: r.errors,
                 rollbacks := ("unexpected error for " ++ f.path) :: r.rollbacks }

/-- Workflow for `per-file-until-error` mode (lines 375-467): the first error of
any kind (read, execution/commit, unexpected, or unrecoverable connection loss)
records the file in `errors`, sets the fatal flag and stops the loop; a
connection loss appends the file without a rollback attempt (line 389-393). -/
def _process_per_file_until_error : List FileSpec → ProcResult
  | [] =>
    { processed := [], errors := [], empty_files := [], fatal_error_occurred := false,
      failed_all_or_nothing := false, rollbacks := [], reconnectAttempts := 0 }
  | f :: rest =>
    if f.connLost then
      { processed := [], errors := [f.path], empty_files := [], fatal_error_occurred := true,
        failed_all_or_nothing := false, rollbacks := [], reconnectAttempts := 1 }
    else
      match f.fate with
      | FileFate.execOk =>
        let r := _process_per_file_until_error rest
        { r with processed := f.path :: r.processed }
      | FileFate.empty =>
        let r := _process_per_file_until_error rest
        { r with empty_files := f.path :: r.empty_files }
      | FileFate.readError =>
        { processed := [], errors := [f.path], empty_files := [], fatal_error_occurred := true,
          failed_all_or_nothing := false, rollbacks := [("file error " ++ f.path)],
          reconnectAttempts := 0 }
      | FileFate.dbError =>
        { processed := [], errors := [f.path], empty_files := [], fatal_error_occurred := true,
          failed_all_or_nothing := false, rollbacks := [("DB/commit error " ++ f.path)],
          reconnectAttempts := 0 }
      | FileFate.unexpectedError =>
        { processed := [], errors := [f.path], empty_files := [], fatal_error_occurred := true,
          failed_all_or_nothing := false, rollbacks := [("unexpected error " ++ f.path)],
          reconnectAttempts := 0 }

/-- The loop of `_process_all_or_nothing` (lines 482-550): one transaction, no
per-file commit; `processed` records files executed into the open transaction;
the first error of any kind (including a connection loss, line 489-494) records
the file in `errors`, attempts a rollback, sets both failure flags and stops. -/
def aonLoop : List FileSpec → ProcResult
  | [] =>
    { processed := [], errors := [], empty_files := [], fatal_error_occurred := false,
      failed_all_or_nothing := false, rollbacks := [], reconnectAttempts := 0 }
  | f :: rest =>
    if f.connLost then
      { processed := [], errors := [f.path], empty_files := [], fatal_error_occurred := true,
        failed_all_or_nothing := true, rollbacks := ["connection lost mid-transaction"],
        reconnectAttempts := 1 }
    else
      match f.fate with
      | FileFate.execOk =>
        let r := aonLoop rest
        { r with processed := f.path :: r.processed }
      | FileFate.empty =>
        let r := aonLoop rest
        { r with empty_files := f.path :: r.empty_files }
      | FileFate.readError =>
        { processed := [], errors := [f.path], empty_files := [], fatal_error_occurred := true,
          failed_all_or_nothing := true, rollbacks := [("file error " ++ f.path)],
          reconnectAttempts := 0 }
      | FileFate.dbError =>
        { processed := [], errors := [f.path], empty_files := [], fatal_error_occurred := true,
          failed_all_or_nothing := true, rollbacks := [("DB error " ++ f.path)],
          reconnectAttempts := 0 }
      | FileFate.unexpectedError =>
        { processed := [], errors := [f.path], empty_files := [], fatal_error_occurred := true,
          failed_all_or_nothing := true, rollbacks := [("unexpected error " ++ f.path)],
          reconnectAttempts := 0 }

/-- Workflow for `all-or-nothing` mode (lines 470-575); `cursorOk = false` models
`conn.cursor()` raising in the outer `try` (lines 552-561). -/
def _process_all_or_nothing (cursorOk : Bool) (files : List FileSpec) : ProcResult :=
  if cursorOk then aonLoop files
  else
    { processed := [], errors := [], empty_files := [], fatal_error_occurred := true,
      failed_all_or_nothing := true, rollbacks := ["transaction setup error"],
      reconnectAttempts := 0 }

/-! ### Orchestrator and reports -/

/-- The three valid values of `--transaction-mode`. -/
inductive Mode
  | perFile
  | untilError
  | allOrNothing
deriving DecidableEq, Repr

/-- What `execute_sql_scripts_in_dir` returns: a bare boolean (lines 590, 612,
653, 682) or the results dictionary. -/
inductive ExecReturn (ρ : Type)
  | bool (b : Bool)
  | res (r : ρ)
deriving DecidableEq, Repr

/-- The run's final record: the results dictionary as completed by the `finally`
block (which also backs the report files), plus the observable actions of the
run: whether a mode workflow was dispatched, reconnection attempts, rollback
contexts, and the final-commit activity of all-or-nothing mode.
`processed_label` is the report-file category chosen at line 775:
`"committed_files"`, or `"executable_files"` when the batch failed. -/
structure RunResult where
  processed : List String
  file_anomalies : List String
  errors : List String
  empty_files : List String
  unprocessed_files : List String
  fatal_error_occurred : Bool
  failed_all_or_nothing : Bool
  dispatched : Bool
  reconnectAttempts : Nat
  rollbacks : List String
  finalCommitAttempted : Bool
  finalCommitSucceeded : Bool
  processed_label : String
deriving DecidableEq, Repr

/-- The `results` dictionary as initialised at lines 592-601. -/
def emptyRun : RunResult :=
  { processed := [], file_anomalies := [], errors := [], empty_files := [],
    unprocessed_files := [], fatal_error_occurred := false,
    failed_all_or_nothing := false, dispatched := false, reconnectAttempts := 0,
    rollbacks := [], finalCommitAttempted := false, finalCommitSucceeded := false,
    processed_label := "committed_files" }

/-- The report computation of the `finally` block (lines 771-805): the
`unprocessed_files` list is the sorted file list minus
`processed ∪ errors ∪ empty_files`, and the report category for `processed`
is renamed when the batch failed. -/
def finalizeReport (sortedPaths : List String) (r : RunResult) : RunResult :=
  let viewed := r.processed ++ r.errors ++ r.empty_files
  { r with
    unprocessed_files := sortedPaths.filter (fun x => decide (¬ x ∈ viewed)),
    processed_label :=
      if r.failed_all_or_nothing then "executable_files" else "committed_files" }

/-- The mode dispatch of the orchestrator (lines 660-678). -/
def dispatchMode (mode : Mode) (cursorOk : Bool) (files : List FileSpec) : ProcResult :=
  match mode with
  | Mode.perFile => _process_per_file files
  | Mode.untilError => _process_per_file_until_error files
  | Mode.allOrNothing => _process_all_or_nothing cursorOk files

/-- `results.update(...)` at lines 662-678: the results dictionary after a mode
workflow ran, before the all-or-nothing final commit. -/
def runFromProc (sortedAnoms : List String) (m : ProcResult) : RunResult :=
  { emptyRun with
    file_anomalies := sortedAnoms,
    processed := m.processed, errors := m.errors, empty_files := m.empty_files,
    fatal_error_occurred := m.fatal_error_occurred,
    failed_all_or_nothing := m.failed_all_or_nothing,
    dispatched := true, reconnectAttempts := m.reconnectAttempts,
    rollbacks := m.rollbacks }

/-- The final commit/rollback decision for all-or-nothing mode (lines 690-732):
skipped when an earlier fatal error occurred (the batch is then marked failed);
a failing final commit retroactively marks the run fatal and failed and
triggers a rollback attempt. -/
def applyFinalCommit (mode : Mode) (finalCommitFails : Bool) (r1 : RunResult) : RunResult :=
  if mode = Mode.allOrNothing then
    if r1.fatal_error_occurred = false then
      if finalCommitFails then
        { r1 with
          fatal_error_occurred := true, failed_all_or_nothing := true,
          finalCommitAttempted := true, finalCommitSucceeded := false,
          rollbacks := r1.rollbacks ++ ["final commit failure"] }
      else
        { r1 with finalCommitAttempted := true, finalCommitSucceeded := true }
    else
      { r1 with failed_all_or_nothing := true }
  else r1

/-- The orchestrator (lines 581-813).  `conn` is whether the initial connection
handle is non-`None`; `dirExists` whether `sql_dir.is_dir()`; `files_found` and
`anomalies` are the two collections produced by `collect_file_paths`;
`finalCommitFails` is whether the final `conn.commit()` of all-or-nothing mode
raises.  Both components of the returned pair carry the report record written
by the `finally` block; the first component is the function's return value. -/
def execute_sql_scripts_in_dir (conn dirExists : Bool) (files_found : List FileSpec)
    (anomalies : List String) (mode : Mode) (cursorOk finalCommitFails : Bool) :
    ExecReturn RunResult × RunResult :=
  if conn = false then
    (ExecReturn.bool false, finalizeReport [] emptyRun)
  else if dirExists = false then
    (ExecReturn.bool false, finalizeReport [] emptyRun)
  else
    let sortedAnoms := natsortStrings anomalies
    let base : RunResult := { emptyRun with file_anomalies := sortedAnoms }
    if 0 < anomalies.length ∧ (mode = Mode.allOrNothing ∨ mode = Mode.untilError) then
      -- anomaly gate (lines 622-638): halt before any transaction work,
      -- promoting the sorted anomalies into the error list
      let r := finalizeReport []
        { base with fatal_error_occurred := true, errors := sortedAnoms }
      (ExecReturn.res r, r)
    else
      let sortedFiles := natsortFiles files_found
      let paths := sortedFiles.map FileSpec.path
      if sortedFiles.isEmpty then
        -- line 653: bare `return True`
        (ExecReturn.bool true, finalizeReport [] base)
      else
        let r := finalizeReport paths
          (applyFinalCommit mode finalCommitFails
            (runFromProc sortedAnoms (dispatchMode mode cursorOk sortedFiles)))
        (ExecReturn.res r, r)

/-! ### Connection manager -/

/-- What one underlying `psycopg2.connect(**params)` call does:
succeed, raise `psycopg2.OperationalError`, or raise any other exception. -/
inductive AttemptOutcome
  | success
  | opError
  | otherError
deriving DecidableEq, Repr

/-- Observable outcome of `connect_db`: whether a connection was returned,
how many `psycopg2.connect` calls were made, and how many times it slept. -/
structure ConnectResult where
  connected : Bool
  attemptsMade : Nat
  sleeps : Nat
deriving DecidableEq, Repr

/-- The retry loop of `connect_db` (lines 98-119); `out j` is the behaviour of
the `j`-th `psycopg2.connect` call, `made` the attempts already used, and the
first argument the loop iterations remaining. -/
def connectAux (out : Nat → AttemptOutcome) (limit : Nat) :
    Nat → Nat → Nat → ConnectResult
  | 0, made, sleeps => { connected := false, attemptsMade := made, sleeps := sleeps }
  | Nat.succ k, made, sleeps =>
    match out (made + 1) with
    | AttemptOutcome.success =>
      { connected := true, attemptsMade := made + 1, sleeps := sleeps }
    | AttemptOutcome.opError =>
      if made + 1 < limit then connectAux out limit k (made + 1) (sleeps + 1)
      else connectAux out limit k (made + 1) sleeps
    | AttemptOutcome.otherError =>
      { connected := false, attemptsMade := made + 1, sleeps := sleeps }

/-- `connect_db(params, attempt_limit, delay)` (lines 93-125); the `delay`
itself is irrelevant to control flow, so only the number of sleeps is tracked. -/
def connect_db (out : Nat → AttemptOutcome) (attempt_limit : Nat) : ConnectResult :=
  connectAux out attempt_limit attempt_limit 0 0

/-! ### Rollback helper -/

/-- `psycopg2.extensions.TRANSACTION_STATUS_INTRANS` (a transaction is open). -/
def TRANSACTION_STATUS_INTRANS : Nat := 2

/-- Connection state as seen by `_attempt_rollback`: the `closed` flag and
`get_transaction_status()` (0 idle, 1 active, 2 in-transaction, 3 in-error,
4 unknown). -/
structure ConnState where
  closed : Bool
  txStatus : Nat
deriving DecidableEq, Repr

/-- What `_attempt_rollback` did: actually rolled back; issued a rollback that
raised and was only logged; logged "no active or error transaction"; or logged
"connection closed or None". -/
inductive RollbackAction
  | rolledBack
  | rollbackFailedLogged
  | noopNoTransaction
  | noopClosedOrNone
deriving DecidableEq, Repr

/-- `_attempt_rollback(conn, context)` (lines 260-283); `rollbackFails` is
whether `conn.rollback()` itself would raise.  Every branch returns an action:
no exception ever escapes this function. -/
def _attempt_rollback (conn : Option ConnState) (rollbackFails : Bool) : RollbackAction :=
  match conn with
  | none => RollbackAction.noopClosedOrNone
  | some c =>
    if c.closed then RollbackAction.noopClosedOrNone
    else if c.txStatus = TRANSACTION_STATUS_INTRANS ∨ c.txStatus = 3 then
      if rollbackFails then RollbackAction.rollbackFailedLogged
      else RollbackAction.rolledBack
    else RollbackAction.noopNoTransaction

/-! ### Entry point -/

/-- Observable outcome of the `__main__` flow: the process exit status, the
number of `psycopg2.connect` calls made by the initial `connect_db(DB_PARAMS)`,
and whether the `final_results_dict.get(...)` attribute access raised
(`AttributeError` on a bare `True`, caught at line 891). -/
structure MainResult where
  exitCode : Nat
  connectAttempts : Nat
  attributeErrorRaised : Bool
deriving DecidableEq, Repr

/-- The entry point (lines 819-918): connect first (5 attempts), then run the
orchestrator; exit 0 only when a results dictionary with a false
`fatal_error_occurred` came back.  A bare `True` return is truthy, so the
code reaches `final_results_dict.get("fatal_error_occurred", True)`, which
raises `AttributeError` on a `bool`; the handler at line 891 then forces
`execution_successful = False`.  A bare `False` return takes the `else` at
line 884 and also fails. -/
def mainFlow (initialOut : Nat → AttemptOutcome) (dirExists : Bool)
    (files_found : List FileSpec) (anomalies : List String) (mode : Mode)
    (cursorOk finalCommitFails : Bool) : MainResult :=
  let c := connect_db initialOut 5
  if c.connected = false then
    { exitCode := 1, connectAttempts := c.attemptsMade, attributeErrorRaised := false }
  else
    match (execute_sql_scripts_in_dir true dirExists files_found anomalies mode
        cursorOk finalCommitFails).1 with
    | ExecReturn.res r =>
      { exitCode := if r.fatal_error_occurred then 1 else 0,
        connectAttempts := c.attemptsMade, attributeErrorRaised := false }
    | ExecReturn.bool true =>
      { exitCode := 1, connectAttempts := c.attemptsMade, attributeErrorRaised := true }
    | ExecReturn.bool false =>
      { exitCode := 1, connectAttempts := c.attemptsMade, attributeErrorRaised := false }

/-! ### Derived classification helpers (used to state the theorems) -/

/-- `_ensure_connection` succeeds at this file's turn. -/
def notLost (f : FileSpec) : Bool := !f.connLost

/-- The file neither loses the connection nor raises: the loop steps past it
in the halting modes. -/
def goodStep (f : FileSpec) : Bool :=
  !f.connLost && (f.fate == FileFate.execOk || f.fate == FileFate.empty)

/-- The file raises during read, execution/commit, or unexpectedly. -/
def isErrorFate (f : FileSpec) : Bool :=
  f.fate == FileFate.readError || f.fate == FileFate.dbError
    || f.fate == FileFate.unexpectedError

/-- Rollback context recorded by `_process_per_file` for a failing file. -/
def perFileCtx (f : FileSpec) : Option String :=
  match f.fate with
  | FileFate.dbError => some ("error processing " ++ f.path)
  | FileFate.unexpectedError => some ("unexpected error for " ++ f.path)
  | _ => none

/-- Rollback context recorded by `_process_per_file_until_error` for the file
that halts the loop (none when the halt is a connection loss). -/
def untilErrorCtx (f : FileSpec) : Option String :=
  if f.connLost then none
  else
    match f.fate with
    | FileFate.readError => some ("file error " ++ f.path)
    | FileFate.dbError => some ("DB/commit error " ++ f.path)
    | FileFate.unexpectedError => some ("unexpected error " ++ f.path)
    | _ => none

/-- Rollback context recorded by the all-or-nothing loop for the file that
halts the transaction. -/
def aonCtx (f : FileSpec) : Option String :=
  if f.connLost then some "connection lost mid-transaction"
  else
    match f.fate with
    | FileFate.readError => some ("file error " ++ f.path)
    | FileFate.dbError => some ("DB error " ++ f.path)
    | FileFate.unexpectedError => some ("unexpected error " ++ f.path)
    | _ => none

/-! ## Theorems -/

/-! ### Order-theoretic facts about the natural sort -/

theorem clistLt_trans (a : List Char) :
    ∀ b c, clistLt a b = true → clistLt b c = true → clistLt a c = true := by
  induction a with
  | nil =>
    intro b c h1 h2
    cases c with
    | nil => cases b <;> simp [clistLt] at h2
    | cons z zs => simp [clistLt]
  | cons x xs ih =>
    intro b c h1 h2
    cases b with
    | nil => simp [clistLt] at h1
    | cons y ys =>
      cases c with
      | nil => simp [clistLt] at h2
      | cons z zs =>
        simp only [clistLt, charLt, Bool.or_eq_true, Bool.and_eq_true,
          decide_eq_true_eq] at h1 h2 ⊢
        rcases h1 with h1 | ⟨hxy, h1⟩
        · rcases h2 with h2 | ⟨hyz, h2⟩
          · exact Or.inl (lt_trans h1 h2)
          · exact Or.inl (hyz ▸ h1)
        · rcases h2 with h2 | ⟨hyz, h2⟩
          · exact Or.inl (hxy.symm ▸ h2)
          · exact Or.inr ⟨hxy.trans hyz, ih ys zs h1 h2⟩

theorem clistLt_eq_of_not (a : List Char) :
    ∀ b, clistLt a b = false → clistLt b a = false → a = b := by
  induction a with
  | nil =>
    intro b h1 _
    cases b with
    | nil => rfl
    | cons y ys => simp [clistLt] at h1
  | cons x xs ih =>
    intro b h1 h2
    cases b with
    | nil => simp [clistLt] at h2
    | cons y ys =>
      simp only [clistLt, charLt, Bool.or_eq_false_iff, Bool.and_eq_false_iff,
        decide_eq_false_iff_not] at h1 h2
      have hxy : x = y := le_antisymm (not_lt.mp h2.1) (not_lt.mp h1.1)
      rcases h1.2 with h | h
      · exact absurd hxy h
      · rcases h2.2 with h' | h'
        · exact absurd hxy.symm h'
        · exact hxy ▸ congrArg (x :: ·) (ih ys h h')

theorem chunkLt_trans (a b c : NatChunk)
    (h1 : chunkLt a b = true) (h2 : chunkLt b c = true) : chunkLt a c = true := by
  cases a <;> cases b <;> cases c <;>
    simp only [chunkLt, decide_eq_true_eq] at h1 h2 ⊢ <;>
    first
      | exact clistLt_trans _ _ _ h1 h2
      | omega
      | exact Bool.noConfusion h1
      | exact Bool.noConfusion h2

theorem chunkLt_eq_of_not (a b : NatChunk)
    (h1 : chunkLt a b = false) (h2 : chunkLt b a = false) : a = b := by
  cases a <;> cases b <;>
    simp only [chunkLt, decide_eq_false_iff_not] at h1 h2 <;>
    first
      | exact congrArg NatChunk.str (clistLt_eq_of_not _ _ h1 h2)
      | exact congrArg NatChunk.num (by omega)
      | exact Bool.noConfusion h1
      | exact Bool.noConfusion h2

theorem keyLe_total (x : List NatChunk) :
    ∀ y, keyLe x y = true ∨ keyLe y x = true := by
  induction x with
  | nil => intro y; exact Or.inl rfl
  | cons a as ih =>
    intro y
    cases y with
    | nil => exact Or.inr rfl
    | cons b bs =>
      by_cases hab : chunkLt a b = true
      · exact Or.inl (by simp [keyLe, hab])
      · by_cases hba : chunkLt b a = true
        · exact Or.inr (by simp [keyLe, hba])
        · have heq : a = b :=
            chunkLt_eq_of_not a b (Bool.not_eq_true _ ▸ hab)
              (Bool.not_eq_true _ ▸ hba)
          rcases ih bs with h | h
          · exact Or.inl (by simp [keyLe, heq, h])
          · exact Or.inr (by simp [keyLe, heq.symm, h])

theorem keyLe_trans (x : List NatChunk) :
    ∀ y z, keyLe x y = true → keyLe y z = true → keyLe x z = true := by
  induction x with
  | nil => intro y z _ _; rfl
  | cons a as ih =>
    intro y z h1 h2
    cases y with
    | nil => simp [keyLe] at h1
    | cons b bs =>
      cases z with
      | nil => simp [keyLe] at h2
      | cons c cs =>
        simp only [keyLe, Bool.or_eq_true, Bool.and_eq_true, decide_eq_true_eq] at h1 h2 ⊢
        rcases h1 with h1 | ⟨hab, h1⟩
        · rcases h2 with h2 | ⟨hbc, h2⟩
          · exact Or.inl (chunkLt_trans a b c h1 h2)
          · exact Or.inl (hbc ▸ h1)
        · rcases h2 with h2 | ⟨hbc, h2⟩
          · exact Or.inl (hab.symm ▸ h2)
          · exact Or.inr ⟨hab.trans hbc, ih bs cs h1 h2⟩

instance : IsTotal String natLeP :=
  ⟨fun a b => keyLe_total (natKey a) (natKey b)⟩

instance : IsTrans String natLeP :=
  ⟨fun a b c h1 h2 => keyLe_trans (natKey a) (natKey b) (natKey c) h1 h2⟩

instance : IsTotal FileSpec fileLeP :=
  ⟨fun a b => keyLe_total (natKey a.path) (natKey b.path)⟩

instance : IsTrans FileSpec fileLeP :=
  ⟨fun a b c h1 h2 => keyLe_trans (natKey a.path) (natKey b.path) (natKey c.path) h1 h2⟩

/-- C9: the natural sorter maps `["f2.sql", "f10.sql", "f1.sql"]` to
`["f1.sql", "f2.sql", "f10.sql"]`; the embedded numeric run makes
`"f2.sql"` sort before `"f10.sql"` even though plain lexicographic character
comparison puts `"f10.sql"` first; and the result of sorting any valid-file
list is a deterministic total order: a permutation of the input that is sorted
with respect to `natLeP`, a total and transitive relation. -/
theorem c9_natural_sort :
    natsortStrings ["f2.sql", "f10.sql", "f1.sql"] = ["f1.sql", "f2.sql", "f10.sql"] ∧
    (natLe "f2.sql" "f10.sql" = true ∧ natLe "f10.sql" "f2.sql" = false ∧
      clistLt "f10.sql".data "f2.sql".data = true) ∧
    (∀ l : List String, (natsortStrings l).Perm l ∧ List.Sorted natLeP (natsortStrings l)) :=
  ⟨by decide, ⟨by decide, by decide, by decide⟩,
    fun l => ⟨List.perm_insertionSort natLeP l, List.sorted_insertionSort natLeP l⟩⟩

/-! ### Closed-form characterisations of the three workflows -/

theorem per_file_eq (files : List FileSpec) :
    _process_per_file files =
      { processed := ((files.takeWhile notLost).filter
          (fun f => f.fate == FileFate.execOk)).map FileSpec.path,
        errors := ((files.takeWhile notLost).filter isErrorFate).map FileSpec.path,
        empty_files := ((files.takeWhile notLost).filter
          (fun f => f.fate == FileFate.empty)).map FileSpec.path,
        fatal_error_occurred := !(files.dropWhile notLost).isEmpty,
        failed_all_or_nothing := false,
        rollbacks := (files.takeWhile notLost).filterMap perFileCtx,
        reconnectAttempts := if (files.dropWhile notLost).isEmpty then 0 else 1 } := by
  induction files with
  | nil => rfl
  | cons f rest ih =>
    by_cases hc : f.connLost
    · simp [_process_per_file, hc, notLost]
    · cases hf : f.fate <;>
        simp [_process_per_file, hc, hf, notLost, ih, perFileCtx, isErrorFate, beq_iff_eq]

theorem until_error_eq (files : List FileSpec) :
    _process_per_file_until_error files =
      { processed := ((files.takeWhile goodStep).filter
          (fun f => f.fate == FileFate.execOk)).map FileSpec.path,
        errors := ((files.dropWhile goodStep).take 1).map FileSpec.path,
        empty_files := ((files.takeWhile goodStep).filter
          (fun f => f.fate == FileFate.empty)).map FileSpec.path,
        fatal_error_occurred := !(files.dropWhile goodStep).isEmpty,
        failed_all_or_nothing := false,
        rollbacks := ((files.dropWhile goodStep).take 1).filterMap untilErrorCtx,
        reconnectAttempts :=
          (((files.dropWhile goodStep).take 1).filter (fun f => f.connLost)).length } := by
  induction files with
  | nil => rfl
  | cons f rest ih =>
    by_cases hc : f.connLost
    · simp [_process_per_file_until_error, hc, goodStep, untilErrorCtx]
    · cases hf : f.fate <;>
        simp [_process_per_file_until_error, hc, hf, goodStep, ih, untilErrorCtx, beq_iff_eq]

theorem aonLoop_eq (files : List FileSpec) :
    aonLoop files =
      { processed := ((files.takeWhile goodStep).filter
          (fun f => f.fate == FileFate.execOk)).map FileSpec.path,
        errors := ((files.dropWhile goodStep).take 1).map FileSpec.path,
        empty_files := ((files.takeWhile goodStep).filter
          (fun f => f.fate == FileFate.empty)).map FileSpec.path,
        fatal_error_occurred := !(files.dropWhile goodStep).isEmpty,
        failed_all_or_nothing := !(files.dropWhile goodStep).isEmpty,
        rollbacks := ((files.dropWhile goodStep).take 1).filterMap aonCtx,
        reconnectAttempts :=
          (((files.dropWhile goodStep).take 1).filter (fun f => f.connLost)).length } := by
  induction files with
  | nil => rfl
  | cons f rest ih =>
    by_cases hc : f.connLost
    · simp [aonLoop, hc, goodStep, aonCtx]
    · cases hf : f.fate <;>
        simp [aonLoop, hc, hf, goodStep, ih, aonCtx, beq_iff_eq]
theorem classify_all_fates (l : List FileSpec) :
    List.Perm
      ((l.filter (fun f => f.fate == FileFate.execOk)).map FileSpec.path
        ++ ((l.filter isErrorFate).map FileSpec.path
          ++ (l.filter (fun f => f.fate == FileFate.empty)).map FileSpec.path))
      (l.map FileSpec.path) := by
  induction l with
  | nil => simp
  | cons f rest ih =>
    cases hf : f.fate <;>
      simp [List.filter_cons, hf, isErrorFate, List.map_cons] <;>
      first
        | exact ih
        | exact List.perm_middle.trans (ih.cons f.path)
        | exact (List.Perm.append_left _ List.perm_middle).trans
            (List.perm_middle.trans (ih.cons f.path))
theorem goodStep_cases {f : FileSpec} (h : goodStep f = true) :
    f.connLost = false ∧ (f.fate = FileFate.execOk ∨ f.fate = FileFate.empty) := by
  simp only [goodStep, Bool.and_eq_true, Bool.not_eq_true', Bool.or_eq_true,
    beq_iff_eq] at h
  exact h

theorem classify_good_fates (l : List FileSpec) (h : ∀ f ∈ l, goodStep f = true) :
    List.Perm
      ((l.filter (fun f => f.fate == FileFate.execOk)).map FileSpec.path
        ++ (l.filter (fun f => f.fate == FileFate.empty)).map FileSpec.path)
      (l.map FileSpec.path) := by
  induction l with
  | nil => simp
  | cons f rest ih =>
    have hrest := fun g hg => h g (List.mem_cons_of_mem f hg)
    rcases (goodStep_cases (h f (List.mem_cons_self f rest))).2 with hf | hf <;>
      simp [List.filter_cons, hf, List.map_cons] <;>
      first
        | exact ih hrest
        | exact List.perm_middle.trans ((ih hrest).cons f.path)

theorem report_partition_core (paths viewed w : List String)
    (hN : paths.Nodup) (hperm : List.Perm viewed w) (hsub : w.Sublist paths) :
    List.Perm (viewed ++ paths.filter (fun x => decide (¬ x ∈ viewed))) paths ∧
    (viewed ++ paths.filter (fun x => decide (¬ x ∈ viewed))).Nodup := by
  have wN : w.Nodup := hsub.nodup hN
  have vN : viewed.Nodup := (hperm.nodup_iff).mpr wN
  have vsub : ∀ x ∈ viewed, x ∈ paths := fun x hx => hsub.subset (hperm.subset hx)
  have fN : (paths.filter (fun x => decide (¬ x ∈ viewed))).Nodup :=
    (List.filter_sublist paths).nodup hN
  have disj : viewed.Disjoint (paths.filter (fun x => decide (¬ x ∈ viewed))) := by
    intro a ha hb
    have hmem := List.mem_filter.mp hb
    rw [decide_eq_true_eq] at hmem
    exact hmem.2 ha
  have nod : (viewed ++ paths.filter (fun x => decide (¬ x ∈ viewed))).Nodup :=
    vN.append fN disj
  refine ⟨(List.perm_ext_iff_of_nodup nod hN).mpr ?_, nod⟩
  intro a
  simp only [List.mem_append, List.mem_filter, decide_eq_true_eq]
  constructor
  · rintro (h | h)
    · exact vsub a h
    · exact h.1
  · intro hp
    by_cases hv : a ∈ viewed
    · exact Or.inl hv
    · exact Or.inr ⟨hp, hv⟩
theorem gate_passes (anomalies : List String) (mode : Mode)
    (h : anomalies = [] ∨ mode = Mode.perFile) :
    ¬(0 < anomalies.length ∧ (mode = Mode.allOrNothing ∨ mode = Mode.untilError)) := by
  rcases h with h | h
  · subst h; simp
  · subst h; rintro ⟨-, h | h⟩ <;> exact Mode.noConfusion h

theorem exec_gate_eq (files_found : List FileSpec) (anomalies : List String)
    (mode : Mode) (cursorOk fc : Bool) (hA : anomalies ≠ [])
    (hm : mode = Mode.allOrNothing ∨ mode = Mode.untilError) :
    execute_sql_scripts_in_dir true true files_found anomalies mode cursorOk fc =
      (ExecReturn.res (finalizeReport []
        { emptyRun with
          file_anomalies := natsortStrings anomalies,
          fatal_error_occurred := true,
          errors := natsortStrings anomalies }),
       finalizeReport []
        { emptyRun with
          file_anomalies := natsortStrings anomalies,
          fatal_error_occurred := true,
          errors := natsortStrings anomalies }) := by
  have hg : 0 < anomalies.length ∧ (mode = Mode.allOrNothing ∨ mode = Mode.untilError) :=
    ⟨List.length_pos.mpr hA, hm⟩
  simp [execute_sql_scripts_in_dir, hg]

theorem exec_empty_eq (files_found : List FileSpec) (anomalies : List String)
    (mode : Mode) (cursorOk fc : Bool)
    (hgate : ¬(0 < anomalies.length ∧ (mode = Mode.allOrNothing ∨ mode = Mode.untilError)))
    (he : (natsortFiles files_found).isEmpty = true) :
    execute_sql_scripts_in_dir true true files_found anomalies mode cursorOk fc =
      (ExecReturn.bool true,
       finalizeReport [] { emptyRun with file_anomalies := natsortStrings anomalies }) := by
  simp [execute_sql_scripts_in_dir, hgate, he]

theorem exec_run_eq (files_found : List FileSpec) (anomalies : List String)
    (mode : Mode) (cursorOk fc : Bool)
    (hgate : ¬(0 < anomalies.length ∧ (mode = Mode.allOrNothing ∨ mode = Mode.untilError)))
    (hne : (natsortFiles files_found).isEmpty = false) :
    execute_sql_scripts_in_dir true true files_found anomalies mode cursorOk fc =
      (ExecReturn.res (finalizeReport ((natsortFiles files_found).map FileSpec.path)
        (applyFinalCommit mode fc (runFromProc (natsortStrings anomalies)
          (dispatchMode mode cursorOk (natsortFiles files_found))))),
       finalizeReport ((natsortFiles files_found).map FileSpec.path)
        (applyFinalCommit mode fc (runFromProc (natsortStrings anomalies)
          (dispatchMode mode cursorOk (natsortFiles files_found))))) := by
  simp [execute_sql_scripts_in_dir, hgate, hne]
theorem applyFinalCommit_lists (mode : Mode) (fc : Bool) (r1 : RunResult) :
    (applyFinalCommit mode fc r1).processed = r1.processed ∧
    (applyFinalCommit mode fc r1).errors = r1.errors ∧
    (applyFinalCommit mode fc r1).empty_files = r1.empty_files ∧
    (applyFinalCommit mode fc r1).file_anomalies = r1.file_anomalies := by
  by_cases hm : mode = Mode.allOrNothing <;>
    by_cases hf : r1.fatal_error_occurred = false <;>
    cases fc <;> simp [applyFinalCommit, hm, hf]

theorem viewed_perm_sublist (mode : Mode) (cursorOk : Bool) (sorted : List FileSpec) :
    ∃ w : List FileSpec,
      List.Perm ((dispatchMode mode cursorOk sorted).processed
          ++ (dispatchMode mode cursorOk sorted).errors
          ++ (dispatchMode mode cursorOk sorted).empty_files)
        (w.map FileSpec.path)
      ∧ w.Sublist sorted := by
  have untilCase : ∀ pre tk : List FileSpec, (∀ f ∈ pre, goodStep f = true) →
      List.Perm ((pre.filter (fun f => f.fate == FileFate.execOk)).map FileSpec.path
          ++ (tk.map FileSpec.path)
          ++ (pre.filter (fun f => f.fate == FileFate.empty)).map FileSpec.path)
        ((pre ++ tk).map FileSpec.path) := by
    intro pre tk hpre
    have h1 : ((pre.filter (fun f => f.fate == FileFate.execOk)).map FileSpec.path
          ++ (tk.map FileSpec.path)
          ++ (pre.filter (fun f => f.fate == FileFate.empty)).map FileSpec.path).Perm
        (((pre.filter (fun f => f.fate == FileFate.execOk)).map FileSpec.path
          ++ (pre.filter (fun f => f.fate == FileFate.empty)).map FileSpec.path)
          ++ (tk.map FileSpec.path)) := by
      rw [List.append_assoc, List.append_assoc]
      exact List.Perm.append_left _ List.perm_append_comm
    refine h1.trans ?_
    refine (List.Perm.append_right (tk.map FileSpec.path)
      (classify_good_fates pre hpre)).trans ?_
    rw [List.map_append]
  cases mode with
  | perFile =>
    refine ⟨sorted.takeWhile notLost, ?_, List.takeWhile_sublist notLost⟩
    simp only [dispatchMode, per_file_eq]
    have := classify_all_fates (sorted.takeWhile notLost)
    rw [← List.append_assoc] at this
    exact this
  | untilError =>
    refine ⟨sorted.takeWhile goodStep ++ (sorted.dropWhile goodStep).take 1, ?_, ?_⟩
    · simp only [dispatchMode, until_error_eq]
      exact untilCase _ _ (fun f hf => List.mem_takeWhile_imp hf)
    · have h := (List.take_sublist 1 (sorted.dropWhile goodStep)).append_left
        (sorted.takeWhile goodStep)
      simpa using h
  | allOrNothing =>
    cases hc : cursorOk with
    | true =>
      refine ⟨sorted.takeWhile goodStep ++ (sorted.dropWhile goodStep).take 1, ?_, ?_⟩
      · simp only [dispatchMode, _process_all_or_nothing, if_pos, aonLoop_eq]
        exact untilCase _ _ (fun f hf => List.mem_takeWhile_imp hf)
      · have h := (List.take_sublist 1 (sorted.dropWhile goodStep)).append_left
          (sorted.takeWhile goodStep)
        simpa using h
    | false =>
      refine ⟨[], ?_, List.nil_sublist sorted⟩
      simp [dispatchMode, _process_all_or_nothing]
theorem isEmpty_false_of_ne {l : List FileSpec} (h : l.isEmpty ≠ true) :
    l.isEmpty = false := by
  cases hh : l.isEmpty
  · rfl
  · exact absurd hh h

/-- C1 (counterexample): in a run halted by the anomaly gate the four outcome
sets do not partition the discovered valid-file set.  With one valid file
`a.sql` and one anomaly `z.sql` in all-or-nothing mode, the file `a.sql` is a
discovered valid file but appears in none of `processed`, `errors`,
`empty_files`, `unprocessed_files`, while `errors` contains the anomaly
`z.sql`, which is not a valid file, so the union is not the valid-file set. -/
theorem c1_partition_counterexample :
    ("a.sql" ∈ [FileSpec.mk "a.sql" FileFate.execOk false].map FileSpec.path) ∧
    (¬ ("a.sql" ∈ (execute_sql_scripts_in_dir true true
          [FileSpec.mk "a.sql" FileFate.execOk false] ["z.sql"]
          Mode.allOrNothing true false).2.processed ∨
        "a.sql" ∈ (execute_sql_scripts_in_dir true true
          [FileSpec.mk "a.sql" FileFate.execOk false] ["z.sql"]
          Mode.allOrNothing true false).2.errors ∨
        "a.sql" ∈ (execute_sql_scripts_in_dir true true
          [FileSpec.mk "a.sql" FileFate.execOk false] ["z.sql"]
          Mode.allOrNothing true false).2.empty_files ∨
        "a.sql" ∈ (execute_sql_scripts_in_dir true true
          [FileSpec.mk "a.sql" FileFate.execOk false] ["z.sql"]
          Mode.allOrNothing true false).2.unprocessed_files)) ∧
    (execute_sql_scripts_in_dir true true
      [FileSpec.mk "a.sql" FileFate.execOk false] ["z.sql"]
      Mode.allOrNothing true false).2.errors = ["z.sql"] := by
  decide

/-- C1 (amended): for every run that reaches reporting with the anomaly gate
passed (no anomalies, or per-file mode) and distinct file paths, the four
outcome sets `processed`, `errors`, `empty_files`, `unprocessed_files` of the
final record partition the sorted discovered valid-file set exactly: their
concatenation is a permutation of it and is duplicate-free (hence the sets are
pairwise disjoint); this holds in every transaction mode, for every
distribution of file fates and connection losses, and for runs halted by a
connection loss.  For runs halted by the anomaly gate the partition fails
(see the counterexample): there the outcome sets consist of the promoted
anomalies only (`errors` is the sorted anomaly list, the other three empty). -/
theorem c1_partition_invariant (files_found : List FileSpec) (anomalies : List String)
    (mode : Mode) (cursorOk fc : Bool)
    (hN : (files_found.map FileSpec.path).Nodup) :
    (let r := (execute_sql_scripts_in_dir true true files_found anomalies mode
        cursorOk fc).2
     ((anomalies = [] ∨ mode = Mode.perFile) →
        List.Perm (r.processed ++ r.errors ++ r.empty_files ++ r.unprocessed_files)
          ((natsortFiles files_found).map FileSpec.path) ∧
        (r.processed ++ r.errors ++ r.empty_files ++ r.unprocessed_files).Nodup) ∧
     (anomalies ≠ [] → mode ≠ Mode.perFile →
        r.processed = [] ∧ r.errors = natsortStrings anomalies ∧
        r.empty_files = [] ∧ r.unprocessed_files = [])) := by
  constructor
  · intro hgate
    have hg := gate_passes anomalies mode hgate
    by_cases he : (natsortFiles files_found).isEmpty = true
    · rw [exec_empty_eq files_found anomalies mode cursorOk fc hg he]
      have hnil : natsortFiles files_found = [] := List.isEmpty_iff.mp he
      simp [finalizeReport, emptyRun, hnil]
    · have hne := isEmpty_false_of_ne he
      rw [exec_run_eq files_found anomalies mode cursorOk fc hg hne]
      obtain ⟨w, hperm, hsub⟩ := viewed_perm_sublist mode cursorOk (natsortFiles files_found)
      obtain ⟨hp, herr, hemp, -⟩ := applyFinalCommit_lists mode fc
        (runFromProc (natsortStrings anomalies)
          (dispatchMode mode cursorOk (natsortFiles files_found)))
      have hN' : ((natsortFiles files_found).map FileSpec.path).Nodup :=
        (((List.perm_insertionSort fileLeP files_found).map FileSpec.path).nodup_iff).mpr hN
      have H := report_partition_core ((natsortFiles files_found).map FileSpec.path)
        ((dispatchMode mode cursorOk (natsortFiles files_found)).processed
          ++ (dispatchMode mode cursorOk (natsortFiles files_found)).errors
          ++ (dispatchMode mode cursorOk (natsortFiles files_found)).empty_files)
        (w.map FileSpec.path) hN' hperm (hsub.map FileSpec.path)
      simp only [finalizeReport, hp, herr, hemp, runFromProc, emptyRun] at *
      constructor
      · exact (by simpa [List.append_assoc] using H.1)
      · exact (by simpa [List.append_assoc] using H.2)
  · intro hA hm
    have hm' : mode = Mode.allOrNothing ∨ mode = Mode.untilError := by
      cases mode
      · exact absurd rfl hm
      · exact Or.inr rfl
      · exact Or.inl rfl
    rw [exec_gate_eq files_found anomalies mode cursorOk fc hA hm']
    simp [finalizeReport, emptyRun]
/-- C2: in all-or-nothing mode, for every sorted file list and every point at
which the connection is lost mid-sequence (`_ensure_connection` returns `None`
at file `b` after a clean prefix `pre`), the run records a rollback attempt
with context "connection lost mid-transaction" at that point, sets
`failed_all_or_nothing = true` and `fatal_error_occurred = true` exactly as the
file-read and execution error branches do, records `b` in `errors`, halts, and
the final commit of the original transaction is never attempted, so no file
executed after the loss is committed as part of it; the files executed before
the loss remain listed in `processed` (executed, not committed). -/
theorem c2_connection_loss (files_found : List FileSpec) (fc : Bool)
    (pre post : List FileSpec) (b : FileSpec)
    (hs : natsortFiles files_found = pre ++ b :: post)
    (hpre : ∀ f ∈ pre, goodStep f = true)
    (hb : b.connLost = true) :
    (let r := (execute_sql_scripts_in_dir true true files_found []
        Mode.allOrNothing true fc).2
     r.failed_all_or_nothing = true ∧ r.fatal_error_occurred = true ∧
     r.rollbacks = ["connection lost mid-transaction"] ∧
     r.finalCommitAttempted = false ∧
     r.errors = [b.path] ∧
     r.processed = (pre.filter (fun f => f.fate == FileFate.execOk)).map FileSpec.path) := by
  have hgb : goodStep b = false := by simp [goodStep, hb]
  have hne : (natsortFiles files_found).isEmpty = false := by
    rw [hs]; cases pre <;> simp
  rw [exec_run_eq files_found [] Mode.allOrNothing true fc (by simp) hne]
  simp [dispatchMode, _process_all_or_nothing, aonLoop_eq, hs,
    List.takeWhile_append_of_pos hpre, List.dropWhile_append_of_pos hpre,
    List.takeWhile_cons, List.dropWhile_cons, hgb,
    finalizeReport, applyFinalCommit, runFromProc, emptyRun, aonCtx, hb]

/-- C2 witness: a concrete three-file run losing the connection at the second
file: the batch is marked failed and the first file stays listed as executed. -/
theorem c2_connection_loss_witness :
    (execute_sql_scripts_in_dir true true
      [FileSpec.mk "f1.sql" FileFate.execOk false,
       FileSpec.mk "f2.sql" FileFate.execOk true,
       FileSpec.mk "f3.sql" FileFate.execOk false] []
      Mode.allOrNothing true false).2.failed_all_or_nothing = true :=
  (c2_connection_loss
    [FileSpec.mk "f1.sql" FileFate.execOk false,
     FileSpec.mk "f2.sql" FileFate.execOk true,
     FileSpec.mk "f3.sql" FileFate.execOk false] false
    [FileSpec.mk "f1.sql" FileFate.execOk false]
    [FileSpec.mk "f3.sql" FileFate.execOk false]
    (FileSpec.mk "f2.sql" FileFate.execOk true)
    (by decide) (by decide) rfl).1

/-- C3 (counterexample): the claim "no database connection attempt is made at
any point in the run" fails: the entry point connects before scanning
(line 867), so a run whose scan then finds the anomaly `z.sql` in
all-or-nothing mode has already made one `psycopg2.connect` attempt. -/
theorem c3_counterexample :
    (mainFlow (fun _ => AttemptOutcome.success) true
        [FileSpec.mk "a.sql" FileFate.execOk false] ["z.sql"]
        Mode.allOrNothing true false).connectAttempts = 1 ∧
    ¬ (mainFlow (fun _ => AttemptOutcome.success) true
        [FileSpec.mk "a.sql" FileFate.execOk false] ["z.sql"]
        Mode.allOrNothing true false).connectAttempts = 0 := by
  decide

/-- C3 (amended): for every run in all-or-nothing or commit-with-halt mode
whose scan discovers a non-empty anomaly list, the orchestrator makes no
connection attempt and no rollback or commit after the scan (the one
connection attempt of the run is the initial `connect_db` made by the entry
point before scanning), the run is marked fatal before any mode workflow is
dispatched (so before any SQL executes), and the anomalies are promoted into
the error list; in per-file (independent-commit) mode the same run proceeds
using only the valid files — its outcome lists are exactly those of
`_process_per_file` on the sorted valid files — and lists the sorted anomalies
separately in `file_anomalies`. -/
theorem c3_anomaly_gate (files_found : List FileSpec) (anomalies : List String)
    (mode : Mode) (cursorOk fc : Bool) :
    (let r := (execute_sql_scripts_in_dir true true files_found anomalies mode
        cursorOk fc).2
     (anomalies ≠ [] → (mode = Mode.allOrNothing ∨ mode = Mode.untilError) →
        r.fatal_error_occurred = true ∧ r.dispatched = false ∧
        r.reconnectAttempts = 0 ∧ r.rollbacks = [] ∧
        r.finalCommitAttempted = false ∧ r.processed = [] ∧
        r.errors = natsortStrings anomalies) ∧
     (mode = Mode.perFile →
        r.file_anomalies = natsortStrings anomalies ∧
        r.processed = (_process_per_file (natsortFiles files_found)).processed ∧
        r.errors = (_process_per_file (natsortFiles files_found)).errors ∧
        r.empty_files = (_process_per_file (natsortFiles files_found)).empty_files)) := by
  constructor
  · intro hA hm
    rw [exec_gate_eq files_found anomalies mode cursorOk fc hA hm]
    simp [finalizeReport, emptyRun]
  · intro hm
    subst hm
    by_cases he : (natsortFiles files_found).isEmpty = true
    · have hnil : natsortFiles files_found = [] := List.isEmpty_iff.mp he
      rw [exec_empty_eq files_found anomalies Mode.perFile cursorOk fc
        (by rintro ⟨-, h | h⟩ <;> exact Mode.noConfusion h) he]
      simp [finalizeReport, emptyRun, hnil, _process_per_file]
    · have hne := isEmpty_false_of_ne he
      rw [exec_run_eq files_found anomalies Mode.perFile cursorOk fc
        (by rintro ⟨-, h | h⟩ <;> exact Mode.noConfusion h) hne]
      simp [finalizeReport, applyFinalCommit, runFromProc, emptyRun, dispatchMode]

/-- C3 witness: a concrete anomaly-gated run in commit-with-halt mode: fatal,
nothing dispatched, no reconnection attempts, anomalies promoted to errors. -/
theorem c3_anomaly_gate_witness :
    (execute_sql_scripts_in_dir true true [FileSpec.mk "a.sql" FileFate.execOk false]
        ["z.sql"] Mode.untilError true false).2.fatal_error_occurred = true ∧
    (execute_sql_scripts_in_dir true true [FileSpec.mk "a.sql" FileFate.execOk false]
        ["z.sql"] Mode.untilError true false).2.errors = natsortStrings ["z.sql"] := by
  have h := (c3_anomaly_gate [FileSpec.mk "a.sql" FileFate.execOk false] ["z.sql"]
    Mode.untilError true false).1 (by decide) (Or.inr rfl)
  exact ⟨h.1, h.2.2.2.2.2.2⟩
/-- C1 witness: a concrete gate-passing run (three files, one execution error,
commit-with-halt): the four outcome lists are a permutation of the sorted
valid-file list. -/
theorem c1_partition_invariant_witness :
    List.Perm
      ((execute_sql_scripts_in_dir true true
          [FileSpec.mk "f2.sql" FileFate.execOk false,
           FileSpec.mk "f10.sql" FileFate.execOk false,
           FileSpec.mk "f1.sql" FileFate.dbError false] []
          Mode.untilError true false).2.processed
        ++ (execute_sql_scripts_in_dir true true
          [FileSpec.mk "f2.sql" FileFate.execOk false,
           FileSpec.mk "f10.sql" FileFate.execOk false,
           FileSpec.mk "f1.sql" FileFate.dbError false] []
          Mode.untilError true false).2.errors
        ++ (execute_sql_scripts_in_dir true true
          [FileSpec.mk "f2.sql" FileFate.execOk false,
           FileSpec.mk "f10.sql" FileFate.execOk false,
           FileSpec.mk "f1.sql" FileFate.dbError false] []
          Mode.untilError true false).2.empty_files
        ++ (execute_sql_scripts_in_dir true true
          [FileSpec.mk "f2.sql" FileFate.execOk false,
           FileSpec.mk "f10.sql" FileFate.execOk false,
           FileSpec.mk "f1.sql" FileFate.dbError false] []
          Mode.untilError true false).2.unprocessed_files)
      ((natsortFiles
          [FileSpec.mk "f2.sql" FileFate.execOk false,
           FileSpec.mk "f10.sql" FileFate.execOk false,
           FileSpec.mk "f1.sql" FileFate.dbError false]).map FileSpec.path) :=
  ((c1_partition_invariant
      [FileSpec.mk "f2.sql" FileFate.execOk false,
       FileSpec.mk "f10.sql" FileFate.execOk false,
       FileSpec.mk "f1.sql" FileFate.dbError false] []
      Mode.untilError true false (by decide)).1 (Or.inl rfl)).1

/-- C4: in all-or-nothing mode, when every file executes cleanly (no losses,
no errors) but the final commit fails, the run is retroactively marked failed
(`fatal_error_occurred = true` and `failed_all_or_nothing = true`), a rollback
with context "final commit failure" is attempted, and the processed list —
which still holds every sorted file — is reported under the category
`executable_files` instead of `committed_files`. -/
theorem c4_final_commit_failure (files_found : List FileSpec)
    (hne : files_found ≠ [])
    (hclean : ∀ f ∈ files_found, f.connLost = false ∧ f.fate = FileFate.execOk) :
    (let r := (execute_sql_scripts_in_dir true true files_found []
        Mode.allOrNothing true true).2
     r.fatal_error_occurred = true ∧ r.failed_all_or_nothing = true ∧
     r.finalCommitAttempted = true ∧ r.finalCommitSucceeded = false ∧
     r.rollbacks = ["final commit failure"] ∧
     r.processed_label = "executable_files" ∧
     r.processed = (natsortFiles files_found).map FileSpec.path) := by
  have hcleanS : ∀ f ∈ natsortFiles files_found,
      f.connLost = false ∧ f.fate = FileFate.execOk :=
    fun f hf => hclean f ((List.perm_insertionSort fileLeP files_found).subset hf)
  have hgood : ∀ f ∈ natsortFiles files_found, goodStep f = true := by
    intro f hf
    obtain ⟨h1, h2⟩ := hcleanS f hf
    simp [goodStep, h1, h2]
  have hdrop : (natsortFiles files_found).dropWhile goodStep = [] :=
    List.dropWhile_eq_nil_iff.mpr hgood
  have htake : (natsortFiles files_found).takeWhile goodStep = natsortFiles files_found :=
    List.takeWhile_eq_self_iff.mpr hgood
  have hfilter : (natsortFiles files_found).filter
      (fun f => f.fate == FileFate.execOk) = natsortFiles files_found := by
    rw [List.filter_eq_self]
    intro f hf
    simp [(hcleanS f hf).2]
  have hneS : (natsortFiles files_found).isEmpty = false := by
    cases h : (natsortFiles files_found).isEmpty
    · rfl
    · have hnil := List.isEmpty_iff.mp h
      have hlen : (natsortFiles files_found).length = files_found.length :=
        (List.perm_insertionSort fileLeP files_found).length_eq
      rw [hnil] at hlen
      exact absurd (List.length_eq_zero.mp hlen.symm) hne
  rw [exec_run_eq files_found [] Mode.allOrNothing true true (by simp) hneS]
  simp [dispatchMode, _process_all_or_nothing, aonLoop_eq, hdrop, htake, hfilter,
    finalizeReport, applyFinalCommit, runFromProc, emptyRun]

/-- C4 witness: a clean two-file all-or-nothing run whose final commit fails is
reported failed with the files relabelled `executable_files`. -/
theorem c4_final_commit_failure_witness :
    (execute_sql_scripts_in_dir true true
        [FileSpec.mk "f1.sql" FileFate.execOk false,
         FileSpec.mk "f2.sql" FileFate.execOk false] []
        Mode.allOrNothing true true).2.failed_all_or_nothing = true ∧
    (execute_sql_scripts_in_dir true true
        [FileSpec.mk "f1.sql" FileFate.execOk false,
         FileSpec.mk "f2.sql" FileFate.execOk false] []
        Mode.allOrNothing true true).2.processed_label = "executable_files" := by
  have h := c4_final_commit_failure
    [FileSpec.mk "f1.sql" FileFate.execOk false,
     FileSpec.mk "f2.sql" FileFate.execOk false]
    (by decide) (by decide)
  exact ⟨h.2.1, h.2.2.2.2.2.1⟩

/-- C5: in per-file (independent-commit) mode, for every file list
`[ok1, bad, ok2]` where `bad` raises a database execution error and the others
succeed with the connection surviving, the result is `processed = [ok1, ok2]`,
`errors = [bad]`, the loop continued past the failed file after a rollback
attempt with context "error processing bad", and the run is non-fatal;
moreover for every file list whatsoever the fatal flag is set if and only if
the connection is permanently lost at some file — per-file errors alone never
set it. -/
theorem c5_per_file_independent (a b c : String) :
    (_process_per_file [FileSpec.mk a FileFate.execOk false,
        FileSpec.mk b FileFate.dbError false,
        FileSpec.mk c FileFate.execOk false]).processed = [a, c] ∧
    (_process_per_file [FileSpec.mk a FileFate.execOk false,
        FileSpec.mk b FileFate.dbError false,
        FileSpec.mk c FileFate.execOk false]).errors = [b] ∧
    (_process_per_file [FileSpec.mk a FileFate.execOk false,
        FileSpec.mk b FileFate.dbError false,
        FileSpec.mk c FileFate.execOk false]).rollbacks
      = [("error processing " ++ b)] ∧
    (_process_per_file [FileSpec.mk a FileFate.execOk false,
        FileSpec.mk b FileFate.dbError false,
        FileSpec.mk c FileFate.execOk false]).fatal_error_occurred = false ∧
    (∀ files : List FileSpec,
      ((_process_per_file files).fatal_error_occurred = true ↔
        ∃ f ∈ files, f.connLost = true)) := by
  refine ⟨rfl, rfl, rfl, rfl, ?_⟩
  intro files
  rw [per_file_eq]
  show (!(files.dropWhile notLost).isEmpty) = true ↔ ∃ f ∈ files, f.connLost = true
  constructor
  · intro h
    have hnd : files.dropWhile notLost ≠ [] := by
      intro hndrop
      rw [hndrop] at h
      simp at h
    rw [Ne, List.dropWhile_eq_nil_iff] at hnd
    push_neg at hnd
    obtain ⟨f, hf, hnl⟩ := hnd
    refine ⟨f, hf, ?_⟩
    simpa [notLost] using hnl
  · rintro ⟨f, hf, hc⟩
    have hnd : files.dropWhile notLost ≠ [] := by
      rw [Ne, List.dropWhile_eq_nil_iff]
      push_neg
      exact ⟨f, hf, by simp [notLost, hc]⟩
    cases hd : (files.dropWhile notLost).isEmpty
    · simp
    · exact absurd (List.isEmpty_iff.mp hd) hnd
/-- C6: in commit-with-halt (per-file-until-error) mode, for every sorted file
list of the form `[ok1, bad, ok2]` where `bad` raises an execution (or commit)
error and `ok1` succeeds, the run ends with `processed = [ok1]`,
`errors = [bad]`, `unprocessed_files = [ok2]`, is fatal, and the single
rollback attempt carries the context of the halting file: the first error
terminates the loop and the subsequent file becomes unprocessed. -/
theorem c6_until_error_halt (a b c : String) (files_found : List FileSpec)
    (hs : natsortFiles files_found =
      [FileSpec.mk a FileFate.execOk false, FileSpec.mk b FileFate.dbError false,
       FileSpec.mk c FileFate.execOk false])
    (hca : c ≠ a) (hcb : c ≠ b) :
    (let r := (execute_sql_scripts_in_dir true true files_found []
        Mode.untilError true false).2
     r.processed = [a] ∧ r.errors = [b] ∧ r.empty_files = [] ∧
     r.unprocessed_files = [c] ∧ r.fatal_error_occurred = true ∧
     r.rollbacks = [("DB/commit error " ++ b)]) := by
  have hne : (natsortFiles files_found).isEmpty = false := by rw [hs]; rfl
  rw [exec_run_eq files_found [] Mode.untilError true false (by simp) hne]
  simp [dispatchMode, until_error_eq, hs, goodStep, finalizeReport,
    applyFinalCommit, runFromProc, emptyRun, untilErrorCtx,
    List.takeWhile_cons, List.dropWhile_cons, hca, hcb]

/-- C6 witness: the concrete run `[s1.sql ok, s2.sql bad, s3.sql ok]`. -/
theorem c6_until_error_halt_witness :
    (execute_sql_scripts_in_dir true true
        [FileSpec.mk "s1.sql" FileFate.execOk false,
         FileSpec.mk "s2.sql" FileFate.dbError false,
         FileSpec.mk "s3.sql" FileFate.execOk false] []
        Mode.untilError true false).2.processed = ["s1.sql"] ∧
    (execute_sql_scripts_in_dir true true
        [FileSpec.mk "s1.sql" FileFate.execOk false,
         FileSpec.mk "s2.sql" FileFate.dbError false,
         FileSpec.mk "s3.sql" FileFate.execOk false] []
        Mode.untilError true false).2.unprocessed_files = ["s3.sql"] := by
  have h := c6_until_error_halt "s1.sql" "s2.sql" "s3.sql"
    [FileSpec.mk "s1.sql" FileFate.execOk false,
     FileSpec.mk "s2.sql" FileFate.dbError false,
     FileSpec.mk "s3.sql" FileFate.execOk false]
    (by decide) (by decide) (by decide)
  exact ⟨h.1, h.2.2.2.1⟩
theorem connectAux_spec (out : Nat → AttemptOutcome) (limit : Nat) :
    ∀ k made sleeps, made + k = limit →
      ∀ cd am sl, connectAux out limit k made sleeps = ConnectResult.mk cd am sl →
      (made ≤ am ∧ am ≤ limit) ∧
      (∀ j, made < j → j < am → out j = AttemptOutcome.opError) ∧
      (cd = true ↔ (made < am ∧ out am = AttemptOutcome.success)) ∧
      (cd = false → am = limit ∨ (made < am ∧ out am = AttemptOutcome.otherError)) ∧
      (sl = sleeps + ((List.range' (made + 1) (am - made)).filter
        (fun j => decide (out j = AttemptOutcome.opError) && decide (j < limit))).length) := by
  intro k
  induction k with
  | zero =>
    intro made sleeps hmade cd am sl heq
    rw [connectAux] at heq
    simp only [ConnectResult.mk.injEq] at heq
    obtain ⟨h1, h2, h3⟩ := heq
    subst h1; subst h2; subst h3
    refine ⟨⟨le_refl made, by omega⟩, fun j hj1 hj2 => absurd (lt_trans hj1 hj2) (lt_irrefl made), ?_, fun _ => Or.inl (by omega), ?_⟩
    · constructor
      · intro h; exact absurd h (by simp)
      · rintro ⟨h, -⟩; exact absurd h (lt_irrefl made)
    · simp
  | succ k ih =>
    intro made sleeps hmade cd am sl heq
    rw [connectAux] at heq
    cases ho : out (made + 1) with
    | success =>
      rw [ho] at heq
      simp only [ConnectResult.mk.injEq] at heq
      obtain ⟨h1, h2, h3⟩ := heq
      subst h1; subst h2; subst h3
      refine ⟨⟨by omega, by omega⟩, fun j hj1 hj2 => by omega, ?_, by simp, ?_⟩
      · simp [ho, Nat.lt_succ_self]
      · have hsub : made + 1 - made = 1 := by omega
        simp [hsub, List.range'_one, List.filter_cons, ho]
    | opError =>
      rw [ho] at heq
      by_cases hlt : made + 1 < limit
      · rw [if_pos hlt] at heq
        have IH := ih (made + 1) (sleeps + 1) (by omega) cd am sl heq
        obtain ⟨⟨hb1, hb2⟩, hrun, hconn, hfail, hsl⟩ := IH
        refine ⟨⟨by omega, hb2⟩, ?_, ?_, ?_, ?_⟩
        · intro j hj1 hj2
          by_cases hj : j = made + 1
          · subst hj; exact ho
          · exact hrun j (by omega) hj2
        · constructor
          · intro h
            obtain ⟨ha, hs⟩ := hconn.mp h
            exact ⟨by omega, hs⟩
          · rintro ⟨ha, hs⟩
            by_cases ham : am = made + 1
            · subst ham; rw [ho] at hs; exact AttemptOutcome.noConfusion hs
            · exact hconn.mpr ⟨by omega, hs⟩
        · intro h
          rcases hfail h with h' | ⟨h1, h2⟩
          · exact Or.inl h'
          · exact Or.inr ⟨by omega, h2⟩
        · have hsub : am - made = (am - (made + 1)) + 1 := by omega
          rw [hsub, List.range'_succ, List.filter_cons]
          have hc : (decide (out (made + 1) = AttemptOutcome.opError)
              && decide (made + 1 < limit)) = true := by
            simp [ho, hlt]
          rw [hc]
          simp
          omega
      · rw [if_neg hlt] at heq
        have hk : k = 0 := by omega
        subst hk
        rw [connectAux] at heq
        simp only [ConnectResult.mk.injEq] at heq
        obtain ⟨h1, h2, h3⟩ := heq
        subst h1; subst h2; subst h3
        refine ⟨⟨by omega, by omega⟩, fun j hj1 hj2 => by omega, ?_, fun _ => Or.inl (by omega), ?_⟩
        · constructor
          · intro h; exact absurd h (by simp)
          · rintro ⟨-, hs⟩; rw [ho] at hs; exact AttemptOutcome.noConfusion hs
        · have hsub : made + 1 - made = 1 := by omega
          rw [hsub, List.range'_one, List.filter_cons]
          have hc : (decide (out (made + 1) = AttemptOutcome.opError)
              && decide (made + 1 < limit)) = false := by
            simp [hlt]
          rw [hc]
          simp
    | otherError =>
      rw [ho] at heq
      simp only [ConnectResult.mk.injEq] at heq
      obtain ⟨h1, h2, h3⟩ := heq
      subst h1; subst h2; subst h3
      refine ⟨⟨by omega, by omega⟩, fun j hj1 hj2 => by omega, ?_, fun _ => Or.inr ⟨by omega, ho⟩, ?_⟩
      · constructor
        · intro h; exact absurd h (by simp)
        · rintro ⟨-, hs⟩; rw [ho] at hs; exact AttemptOutcome.noConfusion hs
      · have hsub : made + 1 - made = 1 := by omega
        rw [hsub, List.range'_one, List.filter_cons]
        have hc : (decide (out (made + 1) = AttemptOutcome.opError)
            && decide (made + 1 < limit)) = false := by
          simp [ho]
        rw [hc]
        simp
/-- C7: `connect_db` makes at most `attempt_limit` connection attempts; every
attempt before the final one was a recoverable (operational) failure; it
returns the live connection exactly when the final attempt made is the first
success (so it returns immediately on success); when it returns no connection
it either exhausted the loop (`attemptsMade = attempt_limit`) or stopped
immediately on an unrecoverable non-operational error at its final attempt;
and it slept exactly once per recoverable failure that was not the last
allowed attempt. -/
theorem c7_connect_db_retry (out : Nat → AttemptOutcome) (attempt_limit : Nat) :
    (connect_db out attempt_limit).attemptsMade ≤ attempt_limit ∧
    (∀ j, 0 < j → j < (connect_db out attempt_limit).attemptsMade →
      out j = AttemptOutcome.opError) ∧
    ((connect_db out attempt_limit).connected = true ↔
      (0 < (connect_db out attempt_limit).attemptsMade ∧
        out (connect_db out attempt_limit).attemptsMade = AttemptOutcome.success)) ∧
    ((connect_db out attempt_limit).connected = false →
      (connect_db out attempt_limit).attemptsMade = attempt_limit ∨
        (0 < (connect_db out attempt_limit).attemptsMade ∧
          out (connect_db out attempt_limit).attemptsMade = AttemptOutcome.otherError)) ∧
    ((connect_db out attempt_limit).sleeps =
      ((List.range' 1 (connect_db out attempt_limit).attemptsMade).filter
        (fun j => decide (out j = AttemptOutcome.opError)
          && decide (j < attempt_limit))).length) := by
  have h := connectAux_spec out attempt_limit attempt_limit 0 0 (by omega)
    (connect_db out attempt_limit).connected
    (connect_db out attempt_limit).attemptsMade
    (connect_db out attempt_limit).sleeps rfl
  obtain ⟨⟨-, hb⟩, hrun, hconn, hfail, hsl⟩ := h
  refine ⟨hb, hrun, hconn, hfail, ?_⟩
  simpa using hsl

/-- C7 witness: two operational failures then a success, with limit 5: three
attempts, connected, two sleeps. -/
theorem c7_connect_db_retry_witness :
    (connect_db (fun j => if j < 3 then AttemptOutcome.opError
        else AttemptOutcome.success) 5).connected = true ↔
      (0 < (connect_db (fun j => if j < 3 then AttemptOutcome.opError
          else AttemptOutcome.success) 5).attemptsMade ∧
        (fun j => if j < 3 then AttemptOutcome.opError else AttemptOutcome.success)
          (connect_db (fun j => if j < 3 then AttemptOutcome.opError
            else AttemptOutcome.success) 5).attemptsMade = AttemptOutcome.success) :=
  (c7_connect_db_retry
    (fun j => if j < 3 then AttemptOutcome.opError else AttemptOutcome.success) 5).2.2.1

/-- C8: `_attempt_rollback` issues a rollback (successful or itself failing and
merely logged) exactly when the connection is present, open, and its
transaction status is in-transaction (`TRANSACTION_STATUS_INTRANS`) or
in-error (3); in every other case it is one of the two logging no-ops; and a
failure of the rollback itself is returned as the logged action
`rollbackFailedLogged`, never re-raised — the function is total and its result
never feeds back into the run's outcome lists. -/
theorem c8_attempt_rollback (conn : Option ConnState) (rollbackFails : Bool) :
    ((_attempt_rollback conn rollbackFails = RollbackAction.rolledBack ∨
      _attempt_rollback conn rollbackFails = RollbackAction.rollbackFailedLogged) ↔
      (∃ c, conn = some c ∧ c.closed = false ∧
        (c.txStatus = TRANSACTION_STATUS_INTRANS ∨ c.txStatus = 3))) ∧
    (rollbackFails = true →
      _attempt_rollback conn rollbackFails ≠ RollbackAction.rolledBack) ∧
    ((_attempt_rollback conn rollbackFails = RollbackAction.noopNoTransaction ∨
      _attempt_rollback conn rollbackFails = RollbackAction.noopClosedOrNone) ↔
      ¬ (∃ c, conn = some c ∧ c.closed = false ∧
        (c.txStatus = TRANSACTION_STATUS_INTRANS ∨ c.txStatus = 3))) := by
  cases conn with
  | none => simp [_attempt_rollback]
  | some c =>
    by_cases hst : c.txStatus = TRANSACTION_STATUS_INTRANS ∨ c.txStatus = 3
    · cases hcl : c.closed
      · cases rollbackFails <;> simp [_attempt_rollback, hcl, hst]
      · simp [_attempt_rollback, hcl, hst]
    · cases hcl : c.closed
      · cases rollbackFails <;> simp [_attempt_rollback, hcl, hst]
      · simp [_attempt_rollback, hcl, hst]

/-- C8 witness: an open connection with an in-error transaction status whose
rollback call raises: the action is the logged failure, and the issuing
condition holds. -/
theorem c8_attempt_rollback_witness :
    (_attempt_rollback (some (ConnState.mk false 3)) true = RollbackAction.rolledBack ∨
      _attempt_rollback (some (ConnState.mk false 3)) true
        = RollbackAction.rollbackFailedLogged) ↔
      (∃ c, (some (ConnState.mk false 3) : Option ConnState) = some c ∧
        c.closed = false ∧ (c.txStatus = TRANSACTION_STATUS_INTRANS ∨ c.txStatus = 3)) :=
  (c8_attempt_rollback (some (ConnState.mk false 3)) true).1

/-- C10: when the directory exists, the scan finds no anomalies and there are
no valid `.sql` files, `execute_sql_scripts_in_dir` returns the bare boolean
`True` instead of a result record while the run record shows no fatal error;
the entry point then fails to read `fatal_error_occurred` from that boolean
(the attribute access raises and is caught) and the process exits with
status 1 — in every transaction mode. -/
theorem c10_bare_true_exit1 (mode : Mode) :
    (execute_sql_scripts_in_dir true true [] [] mode true false).1 =
      ExecReturn.bool true ∧
    (execute_sql_scripts_in_dir true true [] [] mode true
      false).2.fatal_error_occurred = false ∧
    (mainFlow (fun _ => AttemptOutcome.success) true [] [] mode true
      false).exitCode = 1 ∧
    (mainFlow (fun _ => AttemptOutcome.success) true [] [] mode true
      false).attributeErrorRaised = true := by
  cases mode <;> decide

end SqlExec
